import Mathlib

/-!
Shallow embedding of the zdabe server (`src/server.js`): the query builder,
pagination arithmetic, card repository, stage-funding aggregation and the
wallet enrichment, with theorems checking the specification's claims.
-/

namespace Zdabe

/-! ### JavaScript primitive semantics used by the handlers -/

/-- Numeric value of a list of decimal digit characters. -/
def digitsVal (l : List Char) : Nat :=
  l.foldl (fun a c => a * 10 + (c.toNat - 48)) 0

/-- `parseInt(s, 10)`: skip leading whitespace, optional sign, then the
longest prefix of decimal digits; `none` models `NaN` (no digits). -/
def jsParseInt (s : String) : Option Int :=
  match s.data.dropWhile Char.isWhitespace with
  | '-' :: rest =>
      let d := rest.takeWhile Char.isDigit
      if d.isEmpty then none else some (-(digitsVal d : Int))
  | '+' :: rest =>
      let d := rest.takeWhile Char.isDigit
      if d.isEmpty then none else some (digitsVal d : Int)
  | l =>
      let d := l.takeWhile Char.isDigit
      if d.isEmpty then none else some (digitsVal d : Int)

/-- JS truthiness of an optional query-parameter string:
absent and the empty string are falsy, everything else truthy. -/
def jsTruthy : Option String → Bool
  | none => false
  | some s => !(s == "")

/-- `a || b` for an optional string: falsy (absent or empty) falls back. -/
def jsStrOr (o : Option String) (d : String) : String :=
  match o with
  | none => d
  | some s => if s == "" then d else s

/-- `parseInt(x, 10) || 10`: `NaN` (none) and `0` are falsy and fall back to 10. -/
def jsOr10 : Option Int → Int
  | none => 10
  | some 0 => 10
  | some n => n

/-! ### Query inputs of `GET /api/v1/cards` (lines 241-277) -/

/-- The raw query parameters the list handler reads from `req.query`;
`none` means the parameter is absent from the request. -/
structure CardsQuery where
  page : Option String := none
  per_page : Option String := none
  sort_by : Option String := none
  sort_dir : Option String := none
  priority : Option String := none
  status : Option String := none
  stage : Option String := none
  tags : Option String := none
deriving Repr, DecidableEq

/-- Destructuring default `per_page = 10` then `parseInt(per_page, 10)`. -/
def perPageParsed (q : CardsQuery) : Option Int :=
  match q.per_page with
  | none => some 10
  | some s => jsParseInt s

/-- Destructuring default `page = 1` then `parseInt(page, 10)`. -/
def pageParsed (q : CardsQuery) : Option Int :=
  match q.page with
  | none => some 1
  | some s => jsParseInt s

/-- `const limit = Math.min(parseInt(per_page, 10) || 10, 100);` (line 248). -/
def limit (q : CardsQuery) : Int :=
  min (jsOr10 (perPageParsed q)) 100

/-- `const offset = (parseInt(page, 10) - 1) * limit;` (line 249);
`none` models the `NaN` produced by a non-numeric `page`. -/
def offset (q : CardsQuery) : Option Int :=
  (pageParsed q).map (fun p => (p - 1) * limit q)

/-- `current_page: parseInt(page, 10)` in the JSON response (line 328);
`none` models `NaN` (serialized as `null`). -/
def currentPage (q : CardsQuery) : Option Int :=
  pageParsed q

def validSortBy : List String := ["last_updated", "priority", "percent_funded", "date"]

def validSortDir : List String := ["asc", "desc"]

/-- `validSortBy.includes(sort_by) ? sort_by : 'last_updated'` with the
destructuring default `sort_by = 'last_updated'` (lines 244, 253). -/
def sortBySafe (q : CardsQuery) : String :=
  let sb := q.sort_by.getD "last_updated"
  if validSortBy.contains sb then sb else "last_updated"

/-- `validSortDir.includes(sort_dir) ? sort_dir : 'desc'` with the
destructuring default `sort_dir = 'desc'` (lines 245, 254). -/
def sortDirSafe (q : CardsQuery) : String :=
  let sd := q.sort_dir.getD "desc"
  if validSortDir.contains sd then sd else "desc"

/-! ### WHERE-clause construction (lines 256-277) -/

/-- State of the filter builder: the `conditions` array, the bound
`values` array, and the next placeholder index `idx`. -/
structure FilterBuild where
  conditions : List String
  values : List String
  idx : Nat
deriving Repr, DecidableEq

/-- Append one predicate: `conditions.push(mk(idx)); values.push(v); idx++`. -/
def pushCond (fb : FilterBuild) (mk : Nat → String) (v : String) : FilterBuild :=
  { conditions := fb.conditions ++ [mk fb.idx]
    values := fb.values ++ [v]
    idx := fb.idx + 1 }

/-- The filter builder of lines 256-275: start from the single condition
`visibility = 'PUBLIC'`, then append one parameterized predicate per truthy
filter parameter, in the fixed order priority, status, stage, tags. -/
def buildFilter (q : CardsQuery) : FilterBuild :=
  let fb : FilterBuild := { conditions := ["visibility = \x27PUBLIC\x27"], values := [], idx := 1 }
  let fb := if jsTruthy q.priority then
      pushCond fb (fun i => "priority = $" ++ toString i) (q.priority.getD "") else fb
  let fb := if jsTruthy q.status then
      pushCond fb (fun i => "status = $" ++ toString i) (q.status.getD "") else fb
  let fb := if jsTruthy q.stage then
      pushCond fb (fun i => "stage = $" ++ toString i) (q.stage.getD "") else fb
  let fb := if jsTruthy q.tags then
      pushCond fb (fun i => "tags && string_to_array($" ++ toString i ++ ", \x27,\x27)") (q.tags.getD "") else fb
  fb

/-- `const whereClause = conditions.join(' AND ');` (line 277). -/
def whereClause (q : CardsQuery) : String :=
  String.intercalate " AND " (buildFilter q).conditions

/-- Text of the count query (line 281). -/
def countQueryText (q : CardsQuery) : String :=
  "SELECT COUNT(*) FROM cards WHERE " ++ whereClause q

/-- Text of the page query (line 288): the same WHERE clause, then the
sanitized sort clause and `LIMIT $idx OFFSET $(idx+1)`. -/
def pageQueryText (q : CardsQuery) : String :=
  "SELECT * FROM cards WHERE " ++ whereClause q ++ " ORDER BY " ++ sortBySafe q
    ++ " " ++ sortDirSafe q ++ " LIMIT $" ++ toString (buildFilter q).idx
    ++ " OFFSET $" ++ toString ((buildFilter q).idx + 1)

/-- Which of the four filter parameters are present in the raw request. -/
def presentPattern (q : CardsQuery) : Bool × Bool × Bool × Bool :=
  (q.priority.isSome, q.status.isSome, q.stage.isSome, q.tags.isSome)

/-- Which of the four filter parameters are truthy (present and non-empty):
this is the pattern the builder actually branches on. -/
def truthyPattern (q : CardsQuery) : Bool × Bool × Bool × Bool :=
  (jsTruthy q.priority, jsTruthy q.status, jsTruthy q.stage, jsTruthy q.tags)

/-! ### Cards table rows and the SQL semantics of the built queries -/

/-- A row of the `cards` table, restricted to the columns the handlers and
the built SQL actually touch. `wallet_addresses` is nullable in the schema,
hence an `Option`. -/
structure Card where
  id : String
  title : String
  priority : String
  status : String
  stage : String
  tags : List String
  visibility : String
  percent_funded : ℚ
  date : Int
  last_updated : Int
  wallet_addresses : Option (List String) := none

/-- Semantics of the WHERE clause built by `buildFilter` on one row:
`visibility = 'PUBLIC'` plus an equality predicate per truthy filter and
`tags && string_to_array($i, ',')` (array overlap) for the tags filter. -/
def rowMatches (q : CardsQuery) (c : Card) : Bool :=
  (c.visibility == "PUBLIC")
  && (!jsTruthy q.priority || c.priority == q.priority.getD "")
  && (!jsTruthy q.status || c.status == q.status.getD "")
  && (!jsTruthy q.stage || c.stage == q.stage.getD "")
  && (!jsTruthy q.tags || c.tags.any (fun t => ((q.tags.getD "").splitOn ",").contains t))

/-- Row order induced by the sanitized ORDER BY column. -/
def sortKeyLE (sb : String) (c1 c2 : Card) : Bool :=
  if sb == "priority" then c1.priority ≤ c2.priority
  else if sb == "percent_funded" then c1.percent_funded ≤ c2.percent_funded
  else if sb == "date" then c1.date ≤ c2.date
  else c1.last_updated ≤ c2.last_updated

/-- Comparator for `ORDER BY col dir`: `desc` flips the column order. -/
def cardLE (sb sd : String) (c1 c2 : Card) : Bool :=
  if sd == "asc" then sortKeyLE sb c1 c2 else sortKeyLE sb c2 c1

/-- `SELECT COUNT(*) FROM cards WHERE ...` (line 281), then
`parseInt(count, 10)` (line 284). -/
def countRows (table : List Card) (q : CardsQuery) : Nat :=
  (table.filter (rowMatches q)).length

/-- `const totalPages = Math.ceil(totalRows / limit);` (line 285):
exact ceiling of the real division. -/
def totalPagesOf (totalRows : Nat) (l : Int) : Int :=
  ⌈(totalRows : ℚ) / (l : ℚ)⌉

/-- Result set of the page query (line 288): the filtered rows in the ORDER
BY order, then OFFSET and LIMIT. A `NaN` or negative offset and a negative
limit are rejected by the database, modelled as an error result. -/
def pageQueryResult (table : List Card) (q : CardsQuery) : Except String (List Card) :=
  match offset q with
  | none => Except.error "invalid input syntax for offset"
  | some off =>
      if off < 0 then Except.error "OFFSET must not be negative"
      else if limit q < 0 then Except.error "LIMIT must not be negative"
      else Except.ok ((((table.filter (rowMatches q)).mergeSort
        (cardLE (sortBySafe q) (sortDirSafe q))).drop off.toNat).take (limit q).toNat)

/-! ### Stage-funding aggregation (lines 292-323) -/

/-- A row of the `card_stage_funding` table; `currency` and `note` are
nullable columns. -/
structure StageFundingRow where
  card_id : String
  stage : String
  funding_requested : ℚ
  currency : Option String := none
  note : Option String := none

/-- One element of a card's `stage_funding` array as built at lines 302-307. -/
structure StageEntry where
  stage : String
  funding_requested : ℚ
  currency : String
  note : Option String

/-- `x || null`: a falsy (absent or empty) value becomes null. -/
def jsOrNull : Option String → Option String
  | some "" => none
  | x => x

/-- The object pushed for one row: stage and amount verbatim,
`currency: row.currency || 'ZEC'`, `note: row.note || null`. -/
def entryOfRow (r : StageFundingRow) : StageEntry :=
  { stage := r.stage
    funding_requested := r.funding_requested
    currency := jsStrOr r.currency "ZEC"
    note := jsOrNull r.note }

/-- One iteration of the grouping loop (lines 298-309): append the row's
entry to the group keyed by its `card_id`. -/
def addRow (m : String → List StageEntry) (r : StageFundingRow) : String → List StageEntry :=
  fun i => if i == r.card_id then m i ++ [entryOfRow r] else m i

/-- `stageFundingMap` after the loop over all rows, as a total map from a
card id to its group (empty list when the key was never inserted). -/
def stageFundingMap (rows : List StageFundingRow) : String → List StageEntry :=
  rows.foldl addRow (fun _ => [])

/-- Left-padding with zeros, as `toFixed` does for the fractional part. -/
def padLeftZeros (w : Nat) (s : String) : String :=
  String.mk (List.replicate (w - s.length) '0') ++ s

/-- `x.toFixed(8)` for a non-negative decimal: round to the nearest
10^-8 (half away from zero) and print with exactly 8 fractional digits. -/
def formatFixed8 (q : ℚ) : String :=
  let n : Int := ⌊q * 100000000 + 1/2⌋
  toString (n / 100000000) ++ "." ++ padLeftZeros 8 (toString (n % 100000000).toNat)

/-- `stageEntries.reduce((sum, s) => sum + parseFloat(s.funding_requested || 0), 0)`
(lines 314-316). -/
def totalRequested (entries : List StageEntry) : ℚ :=
  entries.foldl (fun sum e => sum + e.funding_requested) 0

/-- One element of the `cards` array in the list response: the card spread
together with its `stage_funding` group and formatted total (lines 318-322). -/
structure CardListItem where
  card : Card
  stage_funding : List StageEntry
  total_funding_requested : String

/-- The map body of lines 312-323 for one card. -/
def attachFunding (rows : List StageFundingRow) (card : Card) : CardListItem :=
  let stageEntries := stageFundingMap rows card.id
  { card := card
    stage_funding := stageEntries
    total_funding_requested := formatFixed8 (totalRequested stageEntries) }

/-- `const cardsWithFunding = result.rows.map(card => ...)` (line 312). -/
def cardsWithFunding (rows : List StageFundingRow) (cards : List Card) : List CardListItem :=
  cards.map (attachFunding rows)

/-! ### Wallet enrichment (lines 4-55, 445-456) -/

/-- The numeric fields the code reads from `data.data[addr].address`. -/
structure AddrFields where
  balance : Int
  received : Int
  sent : Int

/-- A value of `data.data[addr]`: either sub-field may be absent. -/
structure RawEntry where
  address : Option AddrFields
  transactions : Option (List String)

/-- A parsed response body: `data.data` itself may be absent. -/
structure RawDashboard where
  dataMap : Option (List (String × RawEntry))

/-- Outcome of the HTTP round trip to the upstream explorer for one address. -/
inductive FetchOutcome where
  | httpError (status : Nat)
  | jsonError
  | ok (body : RawDashboard)

/-- `fetchAddressData` (lines 4-10): throw `HTTP error <status>` on a
non-ok response, propagate a JSON parse failure, otherwise return the body. -/
def fetchAddressData (env : String → FetchOutcome) (addr : String) : Except String RawDashboard :=
  match env addr with
  | FetchOutcome.httpError st => Except.error ("HTTP error " ++ toString st)
  | FetchOutcome.jsonError => Except.error "Unexpected token in JSON"
  | FetchOutcome.ok b => Except.ok b

/-- A successful per-address record as pushed at lines 32-38. -/
structure AddrInfo where
  address : String
  balance : ℚ
  total_received : ℚ
  total_sent : ℚ
  transactions : List String

/-- The value of `data.data[addr]`, absent when `data.data` is missing or
has no property for this address. -/
def entryFor (b : RawDashboard) (addr : String) : Option RawEntry :=
  b.dataMap.bind (fun m => (m.find? (fun p => p.1 == addr)).map Prod.snd)

/-- The body of the per-address `try` block (lines 20-38): fetch, then
dereference `data.data[addr].address`, the three balances divided by 1e8,
and `transactions.slice(0, 10)`; each missing piece throws. -/
def processAddr (env : String → FetchOutcome) (addr : String) : Except String AddrInfo :=
  match fetchAddressData env addr with
  | Except.error m => Except.error m
  | Except.ok body =>
      match entryFor body addr with
      | none => Except.error "Cannot read properties of undefined reading address"
      | some entry =>
          match entry.address with
          | none => Except.error "Cannot read properties of undefined reading balance"
          | some info =>
              match entry.transactions with
              | none => Except.error "Cannot read properties of undefined reading slice"
              | some txs =>
                  Except.ok
                    { address := addr
                      balance := (info.balance : ℚ) / 100000000
                      total_received := (info.received : ℚ) / 100000000
                      total_sent := (info.sent : ℚ) / 100000000
                      transactions := txs.take 10 }

/-- One element of the `addresses` array: full data on success, or the
error marker `{ address, error }` pushed by the catch block (lines 40-43). -/
inductive AddrResult where
  | success (info : AddrInfo)
  | failure (address : String) (error : String)

/-- The per-address attempt with its catch: never an exception. -/
def caughtAddr (env : String → FetchOutcome) (addr : String) : AddrResult :=
  match processAddr env addr with
  | Except.ok info => AddrResult.success info
  | Except.error msg => AddrResult.failure addr msg

/-- The three running totals of `fetchWalletInfo`. -/
structure WalletTotals where
  balance : ℚ
  total_received : ℚ
  total_sent : ℚ

/-- The return value of `fetchWalletInfo` (lines 47-54). -/
structure WalletInfo where
  addresses : List AddrResult
  totals : WalletTotals

/-- One iteration of the loop at lines 18-45: push the caught per-address
result and add a successful address's amounts to the totals. -/
def walletStep (env : String → FetchOutcome) (acc : WalletInfo) (addr : String) : WalletInfo :=
  match processAddr env addr with
  | Except.ok info =>
      { addresses := acc.addresses ++ [AddrResult.success info]
        totals :=
          { balance := acc.totals.balance + info.balance
            total_received := acc.totals.total_received + info.total_received
            total_sent := acc.totals.total_sent + info.total_sent } }
  | Except.error msg =>
      { acc with addresses := acc.addresses ++ [AddrResult.failure addr msg] }

/-- `fetchWalletInfo(addresses)` (lines 12-55). -/
def fetchWalletInfo (env : String → FetchOutcome) (addrs : List String) : WalletInfo :=
  addrs.foldl (walletStep env) ⟨[], ⟨0, 0, 0⟩⟩

/-- `fetchWalletInfo` as the detail handler sees it: a call that could in
principle throw, with each loop iteration being the fully caught step. -/
def fetchWalletInfoE (env : String → FetchOutcome) (addrs : List String) :
    Except String WalletInfo :=
  addrs.foldlM (fun acc addr => pure (walletStep env acc addr)) ⟨[], ⟨0, 0, 0⟩⟩

/-! ### Detail endpoint `GET /api/v1/cards/:id` (lines 430-461) -/

/-- The four observable response shapes of the detail handler. -/
inductive DetailResponse where
  | notFound
  | okPlain (card : Card)
  | okWallet (card : Card) (w : WalletInfo)
  | okWalletError (card : Card)

/-- `card.wallet_addresses && card.wallet_addresses.length > 0` (line 445). -/
def walletAddrsPresent : Option (List String) → Bool
  | none => false
  | some l => decide (0 < l.length)

/-- Lines 445-456: enrich a found card with wallet info; the catch at
lines 449-453 degrades to a `wallet_info_error` marker. -/
def detailEnrich (env : String → FetchOutcome) (card : Card) : DetailResponse :=
  if walletAddrsPresent card.wallet_addresses then
    match fetchWalletInfoE env (card.wallet_addresses.getD []) with
    | Except.ok w => DetailResponse.okWallet card w
    | Except.error _ => DetailResponse.okWalletError card
  else DetailResponse.okPlain card

/-- `SELECT * FROM cards WHERE id = $1 AND visibility = 'PUBLIC'` (line 435). -/
def detailQueryRows (table : List Card) (i : String) : List Card :=
  table.filter (fun c => c.id == i && c.visibility == "PUBLIC")

/-- The detail handler: empty result set means 404, otherwise the first
row is enriched. -/
def detailHandler (env : String → FetchOutcome) (table : List Card) (i : String) :
    DetailResponse :=
  match detailQueryRows table i with
  | [] => DetailResponse.notFound
  | c :: _ => detailEnrich env c

/-- HTTP status of a detail response. -/
def responseStatus : DetailResponse → Nat
  | DetailResponse.notFound => 404
  | _ => 200

/-- Body of a detail response, as far as the 404 branch is concerned:
`Except.error "Not Found"` is the generic body of line 440, carrying no
information about why the id did not resolve. -/
def responseBody : DetailResponse → Except String Card
  | DetailResponse.notFound => Except.error "Not Found"
  | DetailResponse.okPlain c => Except.ok c
  | DetailResponse.okWallet c _ => Except.ok c
  | DetailResponse.okWalletError c => Except.ok c

/-! ### Helper lemmas -/

/-- The conditions list and next placeholder index determined by the
truthiness pattern alone. -/
def filterShape (p : Bool × Bool × Bool × Bool) : List String × Nat :=
  let s : List String × Nat := (["visibility = \x27PUBLIC\x27"], 1)
  let s := if p.1 then (s.1 ++ ["priority = $" ++ toString s.2], s.2 + 1) else s
  let s := if p.2.1 then (s.1 ++ ["status = $" ++ toString s.2], s.2 + 1) else s
  let s := if p.2.2.1 then (s.1 ++ ["stage = $" ++ toString s.2], s.2 + 1) else s
  let s := if p.2.2.2 then
      (s.1 ++ ["tags && string_to_array($" ++ toString s.2 ++ ", \x27,\x27)"], s.2 + 1) else s
  s

/-- The values array determined by the truthy raw filter values alone. -/
def filterValues (q : CardsQuery) : List String :=
  (if jsTruthy q.priority then [q.priority.getD ""] else [])
    ++ (if jsTruthy q.status then [q.status.getD ""] else [])
    ++ (if jsTruthy q.stage then [q.stage.getD ""] else [])
    ++ (if jsTruthy q.tags then [q.tags.getD ""] else [])

theorem buildFilter_conditions (q : CardsQuery) :
    (buildFilter q).conditions = (filterShape (truthyPattern q)).1 := by
  unfold buildFilter filterShape truthyPattern
  cases hp : jsTruthy q.priority <;> cases hs : jsTruthy q.status <;>
    cases hst : jsTruthy q.stage <;> cases ht : jsTruthy q.tags <;>
      simp [pushCond]

theorem buildFilter_idx (q : CardsQuery) :
    (buildFilter q).idx = (filterShape (truthyPattern q)).2 := by
  unfold buildFilter filterShape truthyPattern
  cases hp : jsTruthy q.priority <;> cases hs : jsTruthy q.status <;>
    cases hst : jsTruthy q.stage <;> cases ht : jsTruthy q.tags <;>
      simp [pushCond]

theorem buildFilter_values (q : CardsQuery) :
    (buildFilter q).values = filterValues q := by
  unfold buildFilter filterValues
  cases hp : jsTruthy q.priority <;> cases hs : jsTruthy q.status <;>
    cases hst : jsTruthy q.stage <;> cases ht : jsTruthy q.tags <;>
      simp [pushCond, hp, hs, hst, ht]

theorem whereClause_prefix_of_shape (p : Bool × Bool × Bool × Bool) :
    ("visibility = \x27PUBLIC\x27").data.isPrefixOf
      (String.intercalate " AND " (filterShape p).1).data = true := by
  revert p; decide

/-! ### C1 -/

/-- C1, counterexample: the claim keys the WHERE-clause text to which
filter parameters are *present*, but a parameter present with an empty
value is falsy and its predicate is dropped, so two requests with the same
present subset (here both have `priority` present) produce different
query text — the value does influence the query string. -/
theorem C1_presence_counterexample :
    presentPattern { priority := some "HIGH" } = presentPattern { priority := some "" } ∧
    whereClause { priority := some "HIGH" } ≠ whereClause { priority := some "" } := by
  exact ⟨rfl, by decide⟩

/-- C1, amended: for raw inputs in which the same subset of
priority/status/stage/tags is present *with non-empty values* (equal
truthiness pattern), the WHERE-clause text is identical, the count-query
text is identical, the LIMIT/OFFSET placeholder indices of the page query
agree (so the page-query text differs only in the sanitized sort clause),
the clause always starts with the `visibility = 'PUBLIC'` predicate, and
the filter values appear only in the bound parameter list. -/
theorem C1_where_clause_determinism (q1 q2 : CardsQuery)
    (h : truthyPattern q1 = truthyPattern q2) :
    whereClause q1 = whereClause q2 ∧
    countQueryText q1 = countQueryText q2 ∧
    (buildFilter q1).idx = (buildFilter q2).idx ∧
    ("visibility = \x27PUBLIC\x27").data.isPrefixOf (whereClause q1).data = true ∧
    (buildFilter q1).values = filterValues q1 := by
  have hc : whereClause q1 = whereClause q2 := by
    unfold whereClause
    rw [buildFilter_conditions, buildFilter_conditions, h]
  refine ⟨hc, ?_, ?_, ?_, buildFilter_values q1⟩
  · unfold countQueryText
    rw [hc]
  · rw [buildFilter_idx, buildFilter_idx, h]
  · unfold whereClause
    rw [buildFilter_conditions]
    exact whereClause_prefix_of_shape (truthyPattern q1)

/-- C1 witness: two concrete requests with the same truthy filters
(priority and tags, different values) get the same query text. -/
theorem C1_where_clause_determinism_witness :
    whereClause { priority := some "HIGH", tags := some "a,b" } =
      whereClause { priority := some "LOW", tags := some "x" } ∧
    countQueryText { priority := some "HIGH", tags := some "a,b" } =
      countQueryText { priority := some "LOW", tags := some "x" } ∧
    (buildFilter { priority := some "HIGH", tags := some "a,b" } : FilterBuild).idx =
      (buildFilter { priority := some "LOW", tags := some "x" } : FilterBuild).idx ∧
    ("visibility = \x27PUBLIC\x27").data.isPrefixOf
      (whereClause { priority := some "HIGH", tags := some "a,b" }).data = true ∧
    (buildFilter { priority := some "HIGH", tags := some "a,b" } : FilterBuild).values =
      filterValues { priority := some "HIGH", tags := some "a,b" } :=
  C1_where_clause_determinism _ _ (by decide)

/-! ### C2 -/

/-- C2, counterexample: a present `page=0` is not treated as page 1 —
`(parseInt('0', 10) - 1) * limit` gives offset `-10` (with the default
limit 10) and `current_page` reports 0, not 1. -/
theorem C2_zero_page_counterexample :
    offset { page := some "0" } = some (-10) ∧
    currentPage { page := some "0" } = some 0 ∧
    ¬(offset { page := some "0" } = some 0 ∧
      currentPage { page := some "0" } = some 1) := by
  refine ⟨by decide, by decide, ?_⟩
  intro hcl
  exact absurd hcl.2 (by decide)

/-- C2, amended: the list endpoint behaves as page 1 (offset 0,
current_page 1) only when the `page` parameter is absent. A present
non-numeric page makes the offset and current_page NaN, and a present
numeric page `p` gives offset `(p-1)*limit` and current_page `p`, which
for `p ≤ 0` is a strictly negative offset (when the limit is positive),
not offset 0. -/
theorem C2_page_defaulting (q : CardsQuery) :
    (q.page = none → offset q = some 0 ∧ currentPage q = some 1) ∧
    (∀ s, q.page = some s → jsParseInt s = none →
      offset q = none ∧ currentPage q = none) ∧
    (∀ s p, q.page = some s → jsParseInt s = some p →
      offset q = some ((p - 1) * limit q) ∧ currentPage q = some p) ∧
    (∀ s p, q.page = some s → jsParseInt s = some p → p ≤ 0 → 0 < limit q →
      (p - 1) * limit q < 0) := by
  refine ⟨?_, ?_, ?_, ?_⟩
  · intro hnone
    simp [offset, currentPage, pageParsed, hnone]
  · intro s hs hparse
    simp [offset, currentPage, pageParsed, hs, hparse]
  · intro s p hs hp
    simp [offset, currentPage, pageParsed, hs, hp]
  · intro s p _ _ hple hlim
    exact mul_neg_of_neg_of_pos (by omega) hlim

/-- C2 witness: at `page=3` (no `per_page`), the offset is
`(3-1)*10 = 20` and current_page is 3. -/
theorem C2_page_defaulting_witness :
    offset { page := some "3" } = some ((3 - 1) * limit { page := some "3" }) ∧
    currentPage { page := some "3" } = some 3 :=
  (C2_page_defaulting { page := some "3" }).2.2.1 "3" 3 rfl (by decide)

/-! ### C3 -/

/-- C3, counterexample: a negative `per_page` is truthy and numeric, so it
is not replaced by the default 10; `Math.min(-5, 100)` leaves the limit at
-5, outside [1,100]. -/
theorem C3_negative_per_page_counterexample :
    limit { per_page := some "-5" } = -5 ∧
    ¬(1 ≤ limit { per_page := some "-5" } ∧
      limit { per_page := some "-5" } ≤ 100) := by
  refine ⟨by decide, ?_⟩
  intro hcl
  exact absurd (by decide : limit { per_page := some "-5" } = -5) (by omega)

/-- C3, amended: a non-numeric or zero `per_page` defaults the limit to 10
and any other numeric value is clamped above by 100 (so every positive
input lands in [1,100], with > 100 clamped to 100), but a negative
`per_page` passes through as a negative limit — there is no lower clamp
to 1. -/
theorem C3_per_page_clamping (q : CardsQuery) :
    (q.per_page = none → limit q = 10) ∧
    (∀ s, q.per_page = some s → jsParseInt s = none → limit q = 10) ∧
    (∀ s, q.per_page = some s → jsParseInt s = some 0 → limit q = 10) ∧
    (∀ s p, q.per_page = some s → jsParseInt s = some p → p ≠ 0 →
      limit q = min p 100) ∧
    (∀ s p, q.per_page = some s → jsParseInt s = some p → 0 < p →
      1 ≤ limit q ∧ limit q ≤ 100) := by
  refine ⟨?_, ?_, ?_, ?_, ?_⟩
  · intro hnone
    simp [limit, perPageParsed, hnone, jsOr10]
  · intro s hs hp
    simp [limit, perPageParsed, hs, hp, jsOr10]
  · intro s hs hp
    simp [limit, perPageParsed, hs, hp, jsOr10]
  · intro s p hs hp hne
    simp only [limit, perPageParsed, hs, hp]
    cases p with
    | ofNat n =>
        cases n with
        | zero => exact absurd rfl hne
        | succ k => rfl
    | negSucc n => rfl
  · intro s p hs hp hpos
    have h : limit q = min p 100 := by
      simp only [limit, perPageParsed, hs, hp]
      cases p with
      | ofNat n =>
          cases n with
          | zero => exact absurd hpos (by decide)
          | succ k => rfl
      | negSucc n => rfl
    constructor
    · rw [h]; omega
    · rw [h]; omega

/-- C3 witness: `per_page=200` is clamped to the limit 100, inside
[1,100]. -/
theorem C3_per_page_clamping_witness :
    1 ≤ limit { per_page := some "200" } ∧ limit { per_page := some "200" } ≤ 100 :=
  (C3_per_page_clamping { per_page := some "200" }).2.2.2.2 "200" 200 rfl (by decide)
    (by omega)

/-! ### C9 -/

/-- C9 (confirmed): any `sort_by` outside the allow-list falls back to
`last_updated` and any `sort_dir` outside asc/desc falls back to `desc`
(absent parameters also get the defaults), and the effective column and
direction always lie in the allow-lists, so no input is ever rejected on
their account. -/
theorem C9_sort_fallbacks (q : CardsQuery) :
    (∀ s, q.sort_by = some s → s ∉ validSortBy → sortBySafe q = "last_updated") ∧
    (q.sort_by = none → sortBySafe q = "last_updated") ∧
    (∀ s, q.sort_dir = some s → s ∉ validSortDir → sortDirSafe q = "desc") ∧
    (q.sort_dir = none → sortDirSafe q = "desc") ∧
    sortBySafe q ∈ validSortBy ∧ sortDirSafe q ∈ validSortDir := by
  refine ⟨?_, ?_, ?_, ?_, ?_, ?_⟩
  · intro s hs hmem
    simp only [sortBySafe, hs, Option.getD_some]
    rw [if_neg]
    simpa using hmem
  · intro hnone
    simp [sortBySafe, hnone]
  · intro s hs hmem
    simp only [sortDirSafe, hs, Option.getD_some]
    rw [if_neg]
    simpa using hmem
  · intro hnone
    simp [sortDirSafe, hnone]
  · simp only [sortBySafe]
    by_cases h : validSortBy.contains (q.sort_by.getD "last_updated")
    · rw [if_pos h]
      simpa using h
    · rw [if_neg h]
      simp [validSortBy]
  · simp only [sortDirSafe]
    by_cases h : validSortDir.contains (q.sort_dir.getD "desc")
    · rw [if_pos h]
      simpa using h
    · rw [if_neg h]
      simp [validSortDir]

/-- C9 witness: `sort_by=bogus&sort_dir=up` falls back to
`last_updated desc`. -/
theorem C9_sort_fallbacks_witness :
    sortBySafe { sort_by := some "bogus", sort_dir := some "up" } = "last_updated" ∧
    sortDirSafe { sort_by := some "bogus", sort_dir := some "up" } = "desc" :=
  ⟨(C9_sort_fallbacks _).1 "bogus" rfl (by decide),
   (C9_sort_fallbacks _).2.2.1 "up" rfl (by decide)⟩

/-! ### C7 -/


/-- Exact rational ceiling of a division of naturals equals the rounded-up
integer division `(n + m - 1) / m`. -/
theorem ceil_nat_div (n m : Nat) (hm : 0 < m) :
    ⌈(n : ℚ) / (m : ℚ)⌉ = (((n + m - 1) / m : ℕ) : Int) := by
  have hmq : (0 : ℚ) < (m : ℚ) := by exact_mod_cast hm
  have hdm := Nat.div_add_mod (n + m - 1) m
  have hlt : (n + m - 1) % m < m := Nat.mod_lt _ hm
  have h1 : n ≤ m * ((n + m - 1) / m) := by omega
  have h2 : m * ((n + m - 1) / m) < n + m := by omega
  have h1q : (n : ℚ) ≤ (((n + m - 1) / m : ℕ) : ℚ) * (m : ℚ) := by
    rw [mul_comm]
    exact_mod_cast h1
  have h2q : (((n + m - 1) / m : ℕ) : ℚ) * (m : ℚ) < (n : ℚ) + m := by
    rw [mul_comm]
    exact_mod_cast h2
  rw [Int.ceil_eq_iff]
  refine ⟨?_, ?_⟩
  · rw [lt_div_iff₀ hmq, Int.cast_natCast]
    nlinarith
  · rw [div_le_iff₀ hmq, Int.cast_natCast]
    linarith

/-- C7 (confirmed): the list response's `total_pages` is
`Math.ceil(totalRows / limit)`, the exact ceiling, which for a positive
limit equals the integer formula `(totalRows + limit - 1) / limit`; when
the filter matches zero rows, `total_pages` is 0 and the page query can
only return the empty cards list. -/
theorem C7_total_pages (table : List Card) (q : CardsQuery) (hl : 0 < limit q) :
    totalPagesOf (countRows table q) (limit q)
      = (((countRows table q + (limit q).toNat - 1) / (limit q).toNat : ℕ) : Int) ∧
    (countRows table q = 0 → totalPagesOf (countRows table q) (limit q) = 0 ∧
      ∀ r, pageQueryResult table q = Except.ok r → r = []) := by
  have htn : ((limit q).toNat : Int) = limit q := Int.toNat_of_nonneg (le_of_lt hl)
  have htpos : 0 < (limit q).toNat := by omega
  constructor
  · unfold totalPagesOf
    rw [← htn]
    push_cast
    exact ceil_nat_div (countRows table q) (limit q).toNat htpos
  · intro hzero
    have hfil : table.filter (rowMatches q) = [] := by
      have h := hzero
      unfold countRows at h
      exact List.length_eq_zero.mp h
    refine ⟨by simp [totalPagesOf, hzero], ?_⟩
    intro r hr
    cases hoff : offset q with
    | none => simp [pageQueryResult, hoff] at hr
    | some off =>
        simp only [pageQueryResult, hoff] at hr
        by_cases h1 : off < 0
        · rw [if_pos h1] at hr; exact absurd hr (by simp)
        · rw [if_neg h1] at hr
          by_cases h2 : limit q < 0
          · rw [if_pos h2] at hr; exact absurd hr (by simp)
          · rw [if_neg h2] at hr
            rw [hfil, List.mergeSort_nil, List.drop_nil, List.take_nil] at hr
            injection hr with h
            exact h.symm

/-- C7 witness: the empty table with default parameters has zero rows,
zero total pages, and an empty page. -/
theorem C7_total_pages_witness :
    totalPagesOf (countRows ([] : List Card) {}) (limit {})
      = (((countRows ([] : List Card) {} + (limit ({} : CardsQuery)).toNat - 1)
          / (limit ({} : CardsQuery)).toNat : ℕ) : Int) ∧
    (countRows ([] : List Card) {} = 0 →
      totalPagesOf (countRows ([] : List Card) {}) (limit {}) = 0 ∧
      ∀ r, pageQueryResult ([] : List Card) {} = Except.ok r → r = []) :=
  C7_total_pages [] {} (by decide)

/-! ### C5 -/

/-- The grouping loop is a group-by: after folding all rows, the group of
an id is exactly the rows with that `card_id`, in table order. -/
theorem foldl_addRow_apply (rows : List StageFundingRow)
    (m : String → List StageEntry) (i : String) :
    (rows.foldl addRow m) i
      = m i ++ (rows.filter (fun r => r.card_id == i)).map entryOfRow := by
  induction rows generalizing m with
  | nil => simp
  | cons r rows ih =>
      rw [List.foldl_cons, ih]
      by_cases h : r.card_id = i
      · simp [addRow, h]
      · have h1 : (r.card_id == i) = false := by simpa using h
        have h2 : (i == r.card_id) = false := by simpa using (Ne.symm h)
        simp [addRow, h1, h2]

theorem stageFundingMap_eq_filter (rows : List StageFundingRow) (i : String) :
    stageFundingMap rows i
      = (rows.filter (fun r => r.card_id == i)).map entryOfRow := by
  unfold stageFundingMap
  rw [foldl_addRow_apply]
  simp

/-- The reduce of lines 314-316 is the sum of the amounts. -/
theorem totalRequested_eq_sum (entries : List StageEntry) :
    totalRequested entries = (entries.map (fun e => e.funding_requested)).sum := by
  suffices h : ∀ (l : List StageEntry) (a : ℚ),
      l.foldl (fun sum e => sum + e.funding_requested) a
        = a + (l.map (fun e => e.funding_requested)).sum by
    simpa [totalRequested] using h entries 0
  intro l
  induction l with
  | nil => intro a; simp
  | cons e l ih => intro a; simp [ih, add_assoc]

/-- C5 (confirmed): every card in the list response carries
`stage_funding` equal to its group of `card_stage_funding` rows (in table
order) and `total_funding_requested` equal to the sum of the group's
`funding_requested` amounts formatted with exactly 8 fractional digits; a
card with no rows gets `[]` and `"0.00000000"`, and amounts 1.5 and 2.25
sum to `"3.75000000"`. -/
theorem C5_stage_funding_totals (rows : List StageFundingRow) (cards : List Card)
    (c : Card) (hc : c ∈ cards) :
    attachFunding rows c ∈ cardsWithFunding rows cards ∧
    (attachFunding rows c).stage_funding
      = (rows.filter (fun r => r.card_id == c.id)).map entryOfRow ∧
    (attachFunding rows c).total_funding_requested
      = formatFixed8 (((rows.filter (fun r => r.card_id == c.id)).map
          (fun r => r.funding_requested)).sum) ∧
    (rows.filter (fun r => r.card_id == c.id) = [] →
      (attachFunding rows c).stage_funding = [] ∧
      (attachFunding rows c).total_funding_requested = "0.00000000") ∧
    formatFixed8 ((3 : ℚ)/2 + 9/4) = "3.75000000" := by
  have hmap := stageFundingMap_eq_filter rows c.id
  have hzero : formatFixed8 0 = "0.00000000" := by
    have hfloor : ⌊(0 : ℚ) * 100000000 + 1/2⌋ = 0 := by norm_num
    simp only [formatFixed8, hfloor]
    rfl
  refine ⟨List.mem_map_of_mem _ hc, ?_, ?_, ?_, ?_⟩
  · simp [attachFunding, hmap]
  · simp only [attachFunding, hmap, totalRequested_eq_sum, List.map_map]
    rfl
  · intro hnil
    constructor
    · simp [attachFunding, hmap, hnil]
    · simp only [attachFunding, hmap, hnil, List.map_nil]
      simpa [totalRequested] using hzero
  · have hfloor : ⌊((3 : ℚ)/2 + 9/4) * 100000000 + 1/2⌋ = 375000000 := by
      norm_num
    simp only [formatFixed8, hfloor]
    rfl

/-- Concrete stage-funding rows for the C5 witness: amounts 1.5 and 2.25
for card `c1`. -/
def exampleRows : List StageFundingRow :=
  [{ card_id := "c1", stage := "ANALYZE", funding_requested := (3 : ℚ)/2 },
   { card_id := "c1", stage := "DESIGN", funding_requested := (9 : ℚ)/4 }]

/-- Concrete card for the C5 witness. -/
def exampleCard : Card :=
  { id := "c1", title := "t", priority := "HIGH", status := "IN PROGRESS"
    stage := "ANALYZE", tags := [], visibility := "PUBLIC"
    percent_funded := 0, date := 0, last_updated := 0 }

/-- C5 witness: for the card `c1` with rows 1.5 and 2.25, the attached
total is the formatted sum, and 1.5 + 2.25 formats to `"3.75000000"`. -/
theorem C5_stage_funding_totals_witness :
    (attachFunding exampleRows exampleCard).total_funding_requested
      = formatFixed8 (((exampleRows.filter
          (fun r => r.card_id == exampleCard.id)).map
          (fun r => r.funding_requested)).sum) ∧
    formatFixed8 ((3 : ℚ)/2 + 9/4) = "3.75000000" :=
  ⟨(C5_stage_funding_totals exampleRows [exampleCard] exampleCard
      (List.mem_singleton.mpr rfl)).2.2.1,
   (C5_stage_funding_totals exampleRows [exampleCard] exampleCard
      (List.mem_singleton.mpr rfl)).2.2.2.2⟩

/-! ### C6 -/

/-- C6 (confirmed): whenever no row satisfies `id = i AND visibility =
'PUBLIC'` — which covers both an id absent from the table and an id
present only with non-PUBLIC visibility — the detail handler returns the
single `notFound` response (status 404, generic `Not Found` body), so the
two cases are observationally identical. -/
theorem C6_not_found_indistinguishable
    (env1 env2 : String → FetchOutcome) (t1 t2 : List Card) (i1 i2 : String)
    (h1 : ∀ c ∈ t1, c.id ≠ i1)
    (h2 : ∀ c ∈ t2, c.id = i2 → c.visibility ≠ "PUBLIC") :
    detailHandler env1 t1 i1 = DetailResponse.notFound ∧
    detailHandler env2 t2 i2 = DetailResponse.notFound ∧
    detailHandler env1 t1 i1 = detailHandler env2 t2 i2 ∧
    responseStatus (detailHandler env1 t1 i1) = 404 ∧
    responseBody (detailHandler env1 t1 i1) = Except.error "Not Found" ∧
    responseBody (detailHandler env2 t2 i2) = Except.error "Not Found" := by
  have hf1 : detailQueryRows t1 i1 = [] := by
    refine List.filter_eq_nil_iff.mpr ?_
    intro c hc
    simp only [Bool.and_eq_true, beq_iff_eq, not_and]
    intro hid
    exact absurd hid (h1 c hc)
  have hf2 : detailQueryRows t2 i2 = [] := by
    refine List.filter_eq_nil_iff.mpr ?_
    intro c hc
    simp only [Bool.and_eq_true, beq_iff_eq, not_and]
    intro hid
    exact h2 c hc hid
  have hd1 : detailHandler env1 t1 i1 = DetailResponse.notFound := by
    unfold detailHandler
    rw [hf1]
  have hd2 : detailHandler env2 t2 i2 = DetailResponse.notFound := by
    unfold detailHandler
    rw [hf2]
  refine ⟨hd1, hd2, hd1.trans hd2.symm, ?_, ?_, ?_⟩
  · rw [hd1]; rfl
  · rw [hd1]; rfl
  · rw [hd2]; rfl

/-- A concrete non-PUBLIC card for the C6 witness. -/
def hiddenCard : Card :=
  { id := "x", title := "secret", priority := "LOW", status := "BLOCKED"
    stage := "DESIGN", tags := [], visibility := "PRIVATE"
    percent_funded := 0, date := 0, last_updated := 0 }

/-- Fetch environment in which every lookup has HTTP status 500, used by
the wallet witnesses. -/
def failEnv : String → FetchOutcome := fun _ => FetchOutcome.httpError 500

/-- C6 witness: looking up the unknown id `y` and looking up the id `x`
of an existing PRIVATE card both return the same 404 `Not Found`
response. -/
theorem C6_not_found_indistinguishable_witness :
    detailHandler failEnv [hiddenCard] "y" = DetailResponse.notFound ∧
    detailHandler failEnv [hiddenCard] "x" = DetailResponse.notFound ∧
    detailHandler failEnv [hiddenCard] "y" = detailHandler failEnv [hiddenCard] "x" ∧
    responseStatus (detailHandler failEnv [hiddenCard] "y") = 404 ∧
    responseBody (detailHandler failEnv [hiddenCard] "y") = Except.error "Not Found" ∧
    responseBody (detailHandler failEnv [hiddenCard] "x") = Except.error "Not Found" :=
  C6_not_found_indistinguishable failEnv failEnv [hiddenCard] [hiddenCard] "y" "x"
    (by intro c hc; rw [List.mem_singleton.mp hc]; decide)
    (by intro c hc; rw [List.mem_singleton.mp hc]; intro _; decide)

/-! ### C4 -/

/-- Contribution of one address to the running balance total: its balance
on success, zero on failure. -/
def addrBalance (env : String → FetchOutcome) (a : String) : ℚ :=
  match processAddr env a with
  | Except.ok i => i.balance
  | Except.error _ => 0

/-- Contribution of one address to the running received total. -/
def addrReceived (env : String → FetchOutcome) (a : String) : ℚ :=
  match processAddr env a with
  | Except.ok i => i.total_received
  | Except.error _ => 0

/-- Contribution of one address to the running sent total. -/
def addrSent (env : String → FetchOutcome) (a : String) : ℚ :=
  match processAddr env a with
  | Except.ok i => i.total_sent
  | Except.error _ => 0

/-- Characterization of the wallet loop from any starting accumulator. -/
theorem walletLoop_char (env : String → FetchOutcome) (addrs : List String)
    (acc : WalletInfo) :
    (addrs.foldl (walletStep env) acc).addresses
      = acc.addresses ++ addrs.map (caughtAddr env) ∧
    (addrs.foldl (walletStep env) acc).totals.balance
      = acc.totals.balance + (addrs.map (addrBalance env)).sum ∧
    (addrs.foldl (walletStep env) acc).totals.total_received
      = acc.totals.total_received + (addrs.map (addrReceived env)).sum ∧
    (addrs.foldl (walletStep env) acc).totals.total_sent
      = acc.totals.total_sent + (addrs.map (addrSent env)).sum := by
  induction addrs generalizing acc with
  | nil => simp
  | cons a addrs ih =>
      rw [List.foldl_cons]
      cases hpa : processAddr env a <;>
        simp [walletStep, caughtAddr, addrBalance, addrReceived, addrSent, hpa, ih,
          add_assoc]

/-- C4 (confirmed): the aggregation returns exactly one entry per address,
in input order (the result list is the pointwise image of the caught
per-address attempt), each failing address contributes a `failure` entry
holding that address and the error message only, each succeeding address a
full `success` entry, and every total is the sum of the succeeding
addresses' amounts, failures contributing zero. -/
theorem C4_wallet_aggregation (env : String → FetchOutcome) (addrs : List String) :
    (fetchWalletInfo env addrs).addresses = addrs.map (caughtAddr env) ∧
    (fetchWalletInfo env addrs).addresses.length = addrs.length ∧
    (fetchWalletInfo env addrs).totals.balance = (addrs.map (addrBalance env)).sum ∧
    (fetchWalletInfo env addrs).totals.total_received
      = (addrs.map (addrReceived env)).sum ∧
    (fetchWalletInfo env addrs).totals.total_sent = (addrs.map (addrSent env)).sum ∧
    (∀ a m, processAddr env a = Except.error m →
      caughtAddr env a = AddrResult.failure a m ∧
      addrBalance env a = 0 ∧ addrReceived env a = 0 ∧ addrSent env a = 0) ∧
    (∀ a i, processAddr env a = Except.ok i →
      caughtAddr env a = AddrResult.success i ∧
      addrBalance env a = i.balance ∧ addrReceived env a = i.total_received ∧
      addrSent env a = i.total_sent) := by
  have h := walletLoop_char env addrs ⟨[], ⟨0, 0, 0⟩⟩
  unfold fetchWalletInfo
  simp only [List.nil_append] at h
  refine ⟨h.1, ?_, ?_, ?_, ?_, ?_, ?_⟩
  · rw [h.1, List.length_map]
  · simpa using h.2.1
  · simpa using h.2.2.1
  · simpa using h.2.2.2
  · intro a m hm
    exact ⟨by simp [caughtAddr, hm], by simp [addrBalance, hm],
      by simp [addrReceived, hm], by simp [addrSent, hm]⟩
  · intro a i hi
    exact ⟨by simp [caughtAddr, hi], by simp [addrBalance, hi],
      by simp [addrReceived, hi], by simp [addrSent, hi]⟩

/-- A well-formed upstream body for address `a`: balance 3 ZEC, received
5 ZEC, sent 2 ZEC in minor units, with two transactions. -/
def okBody : RawDashboard :=
  { dataMap := some [("a",
      { address := some { balance := 300000000, received := 500000000, sent := 200000000 }
        transactions := some ["t1", "t2"] })] }

/-- Environment in which address `a` succeeds and every other address
fails with HTTP status 500. -/
def mixedEnv : String → FetchOutcome :=
  fun a => if a == "a" then FetchOutcome.ok okBody else FetchOutcome.httpError 500

/-- C4 witness: for one succeeding and one failing address, the result
list is the per-address image and the balance total is the sum of
per-address contributions. -/
theorem C4_wallet_aggregation_witness :
    (fetchWalletInfo mixedEnv ["a", "b"]).addresses
      = ["a", "b"].map (caughtAddr mixedEnv) ∧
    (fetchWalletInfo mixedEnv ["a", "b"]).totals.balance
      = (["a", "b"].map (addrBalance mixedEnv)).sum ∧
    caughtAddr mixedEnv "b" = AddrResult.failure "b" "HTTP error 500" :=
  ⟨(C4_wallet_aggregation mixedEnv ["a", "b"]).1,
   (C4_wallet_aggregation mixedEnv ["a", "b"]).2.2.1,
   ((C4_wallet_aggregation mixedEnv ["a", "b"]).2.2.2.2.2.1 "b" "HTTP error 500"
      rfl).1⟩

/-! ### C8 -/

/-- C8 (confirmed): the per-address fetch succeeds exactly when the HTTP
round trip returned a parsed body containing `data.data[addr]` with both
an `address` object and a `transactions` list (any non-success status,
unparseable response, or missing piece of the expected structure is an
error for that address); on success it returns the three amounts divided
by 10^8 and the first 10 transactions — truncating when more exist and
keeping all of them, without error, when fewer exist. -/
theorem C8_address_fetch (env : String → FetchOutcome) (addr : String) :
    ((∃ i, processAddr env addr = Except.ok i) ↔
      (∃ b entry info txs, env addr = FetchOutcome.ok b ∧
        entryFor b addr = some entry ∧ entry.address = some info ∧
        entry.transactions = some txs)) ∧
    (∀ b entry info txs, env addr = FetchOutcome.ok b →
      entryFor b addr = some entry → entry.address = some info →
      entry.transactions = some txs →
      processAddr env addr = Except.ok
        { address := addr
          balance := (info.balance : ℚ) / 100000000
          total_received := (info.received : ℚ) / 100000000
          total_sent := (info.sent : ℚ) / 100000000
          transactions := txs.take 10 } ∧
      (txs.take 10).length = min 10 txs.length ∧
      (txs.length ≤ 10 → txs.take 10 = txs)) ∧
    (∀ st, env addr = FetchOutcome.httpError st →
      processAddr env addr = Except.error ("HTTP error " ++ toString st)) ∧
    (env addr = FetchOutcome.jsonError →
      ∃ m, processAddr env addr = Except.error m) := by
  refine ⟨?_, ?_, ?_, ?_⟩
  · constructor
    · intro ⟨i, hi⟩
      cases henv : env addr with
      | httpError st => simp [processAddr, fetchAddressData, henv] at hi
      | jsonError => simp [processAddr, fetchAddressData, henv] at hi
      | ok b =>
          cases hent : entryFor b addr with
          | none => simp [processAddr, fetchAddressData, henv, hent] at hi
          | some entry =>
              cases haddr : entry.address with
              | none => simp [processAddr, fetchAddressData, henv, hent, haddr] at hi
              | some info =>
                  cases htx : entry.transactions with
                  | none =>
                      simp [processAddr, fetchAddressData, henv, hent, haddr, htx] at hi
                  | some txs =>
                      exact ⟨b, entry, info, txs, rfl, hent, haddr, htx⟩
    · intro ⟨b, entry, info, txs, henv, hent, haddr, htx⟩
      refine ⟨{ address := addr
                balance := (info.balance : ℚ) / 100000000
                total_received := (info.received : ℚ) / 100000000
                total_sent := (info.sent : ℚ) / 100000000
                transactions := txs.take 10 }, ?_⟩
      simp [processAddr, fetchAddressData, henv, hent, haddr, htx]
  · intro b entry info txs henv hent haddr htx
    refine ⟨?_, List.length_take 10 txs, fun hle => List.take_of_length_le hle⟩
    simp [processAddr, fetchAddressData, henv, hent, haddr, htx]
  · intro st henv
    simp [processAddr, fetchAddressData, henv]
  · intro henv
    exact ⟨"Unexpected token in JSON", by simp [processAddr, fetchAddressData, henv]⟩

/-- C8 witness: in the environment where address `a` resolves to a
well-formed body, the fetch returns the divided amounts and both
transactions (fewer than 10, kept in full without error). -/
theorem C8_address_fetch_witness :
    processAddr mixedEnv "a" = Except.ok
      { address := "a"
        balance := ((300000000 : Int) : ℚ) / 100000000
        total_received := ((500000000 : Int) : ℚ) / 100000000
        total_sent := ((200000000 : Int) : ℚ) / 100000000
        transactions := ["t1", "t2"].take 10 } ∧
    (["t1", "t2"].take 10).length = min 10 (["t1", "t2"].length) ∧
    (["t1", "t2"].length ≤ 10 → ["t1", "t2"].take 10 = ["t1", "t2"]) :=
  (C8_address_fetch mixedEnv "a").2.1 okBody
    { address := some { balance := 300000000, received := 500000000, sent := 200000000 }
      transactions := some ["t1", "t2"] }
    { balance := 300000000, received := 500000000, sent := 200000000 }
    ["t1", "t2"] rfl rfl rfl rfl

/-! ### C10 -/

/-- The exception-aware view of the wallet loop always returns normally:
each iteration is the fully caught step, so the fold in the error monad is
the pure fold. -/
theorem fetchWalletInfoE_ok (env : String → FetchOutcome) (addrs : List String) :
    fetchWalletInfoE env addrs = Except.ok (fetchWalletInfo env addrs) := by
  unfold fetchWalletInfoE fetchWalletInfo
  suffices h : ∀ (l : List String) (acc : WalletInfo),
      (l.foldlM (fun acc addr => pure (walletStep env acc addr)) acc :
        Except String WalletInfo) = Except.ok (l.foldl (walletStep env) acc) by
    exact h addrs ⟨[], ⟨0, 0, 0⟩⟩
  intro l
  induction l with
  | nil => intro acc; rfl
  | cons a l ih =>
      intro acc
      rw [List.foldlM_cons, List.foldl_cons]
      calc (pure (walletStep env acc a) >>= fun acc2 =>
              l.foldlM (fun acc addr => pure (walletStep env acc addr)) acc2 :
            Except String WalletInfo)
          = l.foldlM (fun acc addr => pure (walletStep env acc addr))
              (walletStep env acc a) := by rw [pure_bind]
        _ = Except.ok (l.foldl (walletStep env) (walletStep env acc a)) := ih _

/-- C10 (confirmed): `fetchWalletInfo` is total — every per-address
failure is caught inside the loop, so the call the detail handler guards
never throws — and therefore the handler's fallback branch that would
attach `wallet_info_error` is unreachable: a found card is answered either
plain (no addresses) or with `wallet_info`, for every fetch outcome. -/
theorem C10_wallet_fallback_unreachable (env : String → FetchOutcome)
    (addrs : List String) (card : Card) :
    fetchWalletInfoE env addrs = Except.ok (fetchWalletInfo env addrs) ∧
    detailEnrich env card = (if walletAddrsPresent card.wallet_addresses
      then DetailResponse.okWallet card
        (fetchWalletInfo env (card.wallet_addresses.getD []))
      else DetailResponse.okPlain card) := by
  refine ⟨fetchWalletInfoE_ok env addrs, ?_⟩
  unfold detailEnrich
  by_cases h : walletAddrsPresent card.wallet_addresses = true
  · rw [if_pos h, if_pos h, fetchWalletInfoE_ok]
  · rw [if_neg h, if_neg h]

/-- Card with one wallet address, for the C10 witness. -/
def walletCard : Card :=
  { id := "w", title := "w", priority := "HIGH", status := "IN PROGRESS"
    stage := "ANALYZE", tags := [], visibility := "PUBLIC"
    percent_funded := 0, date := 0, last_updated := 0
    wallet_addresses := some ["b"] }

/-- C10 witness: even when every address lookup fails upstream, the
aggregation returns normally and the detail enrichment takes the
`wallet_info` branch, not the `wallet_info_error` fallback. -/
theorem C10_wallet_fallback_unreachable_witness :
    fetchWalletInfoE failEnv ["b"] = Except.ok (fetchWalletInfo failEnv ["b"]) ∧
    detailEnrich failEnv walletCard = (if walletAddrsPresent walletCard.wallet_addresses
      then DetailResponse.okWallet walletCard
        (fetchWalletInfo failEnv (walletCard.wallet_addresses.getD []))
      else DetailResponse.okPlain walletCard) :=
  C10_wallet_fallback_unreachable failEnv ["b"] walletCard

end Zdabe